import Mathlib

/-!
Shallow embedding of the cross-filter dashboard engine of this repository,
translated from `src/app.py` (the weighted-score column derivation follows
`src/app_cross_filter_state_mamagement_plotly.py` lines 64-67).
Scores are modelled as rationals; pandas dataframes as lists of records;
the dcc.Store filter values as strings with the in-band sentinel "All".
-/

/-- Embeds `get_grade` (src/app.py lines 46-51): letter grade from a score. -/
def get_grade (s : ℚ) : String :=
  if s > 84 then "A"
  else if s > 74 then "B"
  else if s > 64 then "C"
  else if s > 54 then "D"
  else "F"

/-- Embeds the derived column `PassedScore` (src/app.py line 44). -/
def passedScore (s : ℚ) : String := if s ≥ 55 then "Pass" else "Fail"

/-- Embeds `perfect_target` (src/app.py line 56). -/
def perfect_target : ℚ := 100

/-- The declared order of the ordinal assessment-grade categories
(src/app.py line 54 and the reindex on line 235). -/
def grade_order : List String := ["A", "B", "C", "D", "F"]

/-- One row of the joined wide table `df` (src/app.py lines 39-42).  `weight` and
`weightedScore` model the optional `Weight` / `WeightedScore` columns read at
src/app.py lines 196-198; when the repository itself derives them
(src/app_cross_filter_state_mamagement_plotly.py lines 64-67) the invariant
`weightedScore = score * weight` holds. -/
structure Rec where
  studentId : Nat
  gradeLevel : String
  subjectName : String
  score : ℚ
  weight : ℚ
  weightedScore : ℚ
  deriving DecidableEq

/-- The derived column `Assessment_Grade` (src/app.py line 53). -/
def assessGrade (r : Rec) : String := get_grade r.score

/-- The three dcc.Store filter values (src/app.py lines 71-73);
"All" is the in-band representation of an unconstrained dimension. -/
structure FilterState where
  grade : String
  subject : String
  assess : String
  deriving DecidableEq

/-- A Vega selection payload `sel`: a dict from field name to the list of clicked
values.  The empty list models a falsy `sel` (`None` or `\x7b\x7d`). -/
abbrev Sel := List (String × List String)

/-- The `signalData` dict of one chart: signal name to selection payload.
The empty list models a falsy `signal_data`. -/
abbrev SignalData := List (String × Sel)

/-- Python dict lookup, used for `signal_name in signal_data` and
`key_name in sel` followed by subscripting. -/
def lookupVal {α : Type} (k : String) : List (String × α) → Option α
  | [] => none
  | (k', v) :: rest => if k' = k then some v else lookupVal k rest

/-- Embeds `process_signal` (src/app.py lines 140-151): interprets one chart's
signal payload against the dimension's current filter value. -/
def process_signal (signal_data : SignalData) (signal_name key_name : String)
    (current_filter : String) : String :=
  match lookupVal signal_name signal_data with
  | none => current_filter
  | some sel =>
    if sel = [] then "All"
    else
      match lookupVal key_name sel with
      | some (clicked :: _) =>
        if current_filter ≠ "All" ∧ clicked = current_filter then "All" else clicked
      | _ => current_filter

/-- The three `signalData` inputs of `manage_filters` (src/app.py lines 123-125). -/
structure Signals where
  sigGrade : SignalData
  sigSubj : SignalData
  sigAssess : SignalData

/-- Embeds `manage_filters` (src/app.py lines 130-163).  `none` models
`not ctx.triggered`; otherwise the trigger id string is dispatched exactly as in
the source, with the final fall-through returning the state unchanged. -/
def manage_filters (trigger_id : Option String) (sigs : Signals) (s : FilterState) :
    FilterState :=
  match trigger_id with
  | none => ⟨"All", "All", "All"⟩
  | some t =>
    if t = "btn-reset" then ⟨"All", "All", "All"⟩
    else if t = "chart-grade" then
      { s with grade := process_signal sigs.sigGrade "sel_grade" "GradeLevel" s.grade }
    else if t = "chart-subject" then
      { s with subject := process_signal sigs.sigSubj "sel_subject" "SubjectName" s.subject }
    else if t = "chart-assess" then
      { s with assess := process_signal sigs.sigAssess "sel_assess" "Assessment_Grade" s.assess }
    else s

/-- A well-formed single-category click payload for one chart, as produced by a
Vega point selection: `signalData = \x7bsignal_name: \x7bkey_name: [v]\x7d\x7d`. -/
def clickSig (signal_name key_name v : String) : SignalData :=
  [(signal_name, [(key_name, [v])])]

/-- Embeds `filter_df` (src/app.py lines 181-189): the predicate builder with
per-dimension self-exclusion flags. -/
def filter_df (sel_grade sel_subj sel_assess : String)
    (ignore_grade ignore_subj ignore_assess : Bool) (rows : List Rec) : List Rec :=
  let d := rows
  let d := if ignore_grade = false ∧ sel_grade ≠ "All"
           then d.filter fun r => r.gradeLevel = sel_grade else d
  let d := if ignore_subj = false ∧ sel_subj ≠ "All"
           then d.filter fun r => r.subjectName = sel_subj else d
  let d := if ignore_assess = false ∧ sel_assess ≠ "All"
           then d.filter fun r => assessGrade r = sel_assess else d
  d

/-- Arithmetic mean of a list of rationals, embedding `Series.mean`. -/
def mean (xs : List ℚ) : ℚ := xs.sum / (xs.length : ℚ)

/-- Number of occurrences of a value in a list, embedding `value_counts`'s count
of one value. -/
def countVal (v : String) (xs : List String) : Nat :=
  (xs.filter fun x => x = v).length

/-- Distinct values of a list in order of first appearance (the index of a
pandas `value_counts` before sorting). -/
def dedupFirst : List String → List String
  | [] => []
  | x :: rest => x :: (dedupFirst rest).filter fun y => y ≠ x

/-- Insertion step of the count-descending sort applied by `value_counts`. -/
def insertByCount (p : String × Nat) : List (String × Nat) → List (String × Nat)
  | [] => [p]
  | q :: rest => if q.2 ≥ p.2 then q :: insertByCount p rest else p :: q :: rest

/-- Count-descending sort applied by `value_counts`. -/
def sortCountDesc : List (String × Nat) → List (String × Nat)
  | [] => []
  | p :: rest => insertByCount p (sortCountDesc rest)

/-- Embeds `Series.value_counts()` (src/app.py line 235): occurrence counts of
the distinct values, sorted by count descending. -/
def value_counts (xs : List String) : List (String × Nat) :=
  sortCountDesc ((dedupFirst xs).map fun v => (v, countVal v xs))

/-- Embeds `.reindex(idx, fill_value=0)` (src/app.py line 235): one entry per
index label in index order, taking the tabulated count or 0 when absent. -/
def reindex_fill0 (counts : List (String × Nat)) (idx : List String) :
    List (String × Nat) :=
  idx.map fun g => (g, (lookupVal g counts).getD 0)

/-- Embeds the data computed by `build_donut_assess` (src/app.py lines 231-241):
`none` models the early-return "No Data" chart on an empty input, otherwise the
`counts` table `value_counts().reindex(['A','B','C','D','F'], fill_value=0)`. -/
def build_donut_assess_data (rows : List Rec) : Option (List (String × Nat)) :=
  if rows = [] then none
  else some (reindex_fill0 (value_counts (rows.map assessGrade)) grade_order)

/-- The KPI outputs of `update_visuals` (src/app.py lines 191-202); `none`
models the "N/A" sentinel string, `some q` the exact value that is then
formatted for display. -/
structure Kpis where
  avg : Option ℚ
  wavg : Option ℚ
  passRate : Option ℚ
  perfectRate : Option ℚ
  deriving DecidableEq

/-- Embeds the KPI block of `update_visuals` (src/app.py lines 191-202).
`hasWeightCols` models the column-presence test
`"WeightedScore" in df_kpi.columns and "Weight" in df_kpi.columns`. -/
def computeKpis (hasWeightCols : Bool) (subset : List Rec) : Kpis :=
  if subset = [] then ⟨none, none, none, none⟩
  else
    let avg := mean (subset.map Rec.score)
    let wavg :=
      if hasWeightCols then
        let total_w := (subset.map Rec.weight).sum
        if total_w > 0 then (subset.map Rec.weightedScore).sum / total_w else avg
      else avg
    let passR :=
      (((subset.filter fun r => passedScore r.score = "Pass").length : ℚ) /
        (subset.length : ℚ)) * 100
    let perfR :=
      (((subset.filter fun r => r.score = perfect_target).length : ℚ) /
        (subset.length : ℚ)) * 100
    ⟨some avg, some wavg, some passR, some perfR⟩

lemma lookup_map_self (g : String) (f : String → Nat) (l : List String) :
    lookupVal g (l.map fun v => (v, f v)) = if g ∈ l then some (f g) else none := by
  induction l with
  | nil => simp [lookupVal]
  | cons x rest ih =>
    by_cases hx : x = g
    · subst hx
      simp [lookupVal, ih]
    · simp [lookupVal, hx, ih, Ne.symm hx]

lemma mem_insertByCount (q p : String × Nat) (l : List (String × Nat)) :
    q ∈ insertByCount p l ↔ q = p ∨ q ∈ l := by
  induction l with
  | nil => simp [insertByCount]
  | cons r rest ih =>
    by_cases h : r.2 ≥ p.2
    · simp only [insertByCount, if_pos h, List.mem_cons, ih]
      tauto
    · simp only [insertByCount, if_neg h, List.mem_cons]

lemma mem_sortCountDesc (q : String × Nat) (l : List (String × Nat)) :
    q ∈ sortCountDesc l ↔ q ∈ l := by
  induction l with
  | nil => simp [sortCountDesc]
  | cons p rest ih => simp [sortCountDesc, mem_insertByCount, ih]

lemma lookup_insertByCount (g : String) (p : String × Nat) (l : List (String × Nat))
    (h : ∀ q ∈ l, q.1 ≠ p.1) :
    lookupVal g (insertByCount p l) = if p.1 = g then some p.2 else lookupVal g l := by
  induction l with
  | nil => simp [insertByCount, lookupVal]
  | cons r rest ih =>
    have hr : r.1 ≠ p.1 := h r (List.mem_cons_self r rest)
    have hrest : ∀ q ∈ rest, q.1 ≠ p.1 := fun q hq => h q (List.mem_cons_of_mem r hq)
    by_cases hcmp : r.2 ≥ p.2
    · simp only [insertByCount, if_pos hcmp, lookupVal, ih hrest]
      by_cases hg : r.1 = g
      · have : ¬ p.1 = g := fun hpg => hr (hg.trans hpg.symm)
        simp [hg, this]
      · simp [hg]
    · simp only [insertByCount, if_neg hcmp, lookupVal]

lemma lookup_sortCountDesc (g : String) (l : List (String × Nat))
    (h : (l.map Prod.fst).Nodup) :
    lookupVal g (sortCountDesc l) = lookupVal g l := by
  induction l with
  | nil => simp [sortCountDesc]
  | cons p rest ih =>
    simp only [List.map_cons, List.nodup_cons, List.mem_map] at h
    have hkeys : ∀ q ∈ sortCountDesc rest, q.1 ≠ p.1 := by
      intro q hq hq1
      exact h.1 ⟨q, (mem_sortCountDesc q rest).mp hq, hq1⟩
    simp only [sortCountDesc, lookup_insertByCount g p _ hkeys, ih h.2, lookupVal]

lemma mem_dedupFirst (g : String) (xs : List String) :
    g ∈ dedupFirst xs ↔ g ∈ xs := by
  induction xs with
  | nil => simp [dedupFirst]
  | cons x rest ih =>
    by_cases hx : g = x
    · subst hx
      simp [dedupFirst]
    · simp [dedupFirst, List.mem_filter, hx, ih]

lemma nodup_dedupFirst (xs : List String) : (dedupFirst xs).Nodup := by
  induction xs with
  | nil => simp [dedupFirst]
  | cons x rest ih =>
    refine List.Nodup.cons ?_ (List.Nodup.filter _ ih)
    intro hx
    have := (List.mem_filter.mp hx).2
    simp at this

lemma lookup_value_counts (g : String) (xs : List String) :
    lookupVal g (value_counts xs) = if g ∈ xs then some (countVal g xs) else none := by
  unfold value_counts
  rw [lookup_sortCountDesc, lookup_map_self]
  · by_cases hg : g ∈ xs <;> simp [mem_dedupFirst, hg]
  · have : ((dedupFirst xs).map fun v => (v, countVal v xs)).map Prod.fst = dedupFirst xs := by
      simp [Function.comp_def]
    rw [this]
    exact nodup_dedupFirst xs

lemma countVal_of_not_mem (g : String) (xs : List String) (h : g ∉ xs) :
    countVal g xs = 0 := by
  unfold countVal
  have : xs.filter (fun x => x = g) = [] := by
    rw [List.filter_eq_nil_iff]
    intro a ha
    simp only [decide_eq_true_eq]
    exact fun hag => h (hag ▸ ha)
  rw [this]
  rfl

lemma reindex_value_counts (xs idx : List String) :
    reindex_fill0 (value_counts xs) idx = idx.map fun g => (g, countVal g xs) := by
  unfold reindex_fill0
  refine List.map_congr_left ?_
  intro g _
  rw [lookup_value_counts]
  by_cases hg : g ∈ xs
  · simp [hg]
  · simp [hg, countVal_of_not_mem g xs hg]

lemma process_signal_clickSig (sname key v c : String) :
    process_signal (clickSig sname key v) sname key c =
      if c ≠ "All" ∧ v = c then "All" else v := by
  simp [process_signal, clickSig, lookupVal]

lemma toggle_twice (sname key v c : String) (h : c = "All" ∨ c = v) :
    process_signal (clickSig sname key v) sname key
      (process_signal (clickSig sname key v) sname key c) = c := by
  rw [process_signal_clickSig, process_signal_clickSig]
  by_cases hc : c = "All"
  · subst hc
    by_cases hv : v = "All"
    · subst hv
      simp
    · simp [hv]
  · rcases h with h | h
    · exact absurd h hc
    · subst h
      simp [hc]

lemma toggle_twice_other (sname key v c : String) (_hc : c ≠ "All") (hv : c ≠ v) :
    process_signal (clickSig sname key v) sname key
      (process_signal (clickSig sname key v) sname key c) = "All" := by
  have hinner : process_signal (clickSig sname key v) sname key c = v := by
    rw [process_signal_clickSig]
    exact if_neg fun h => hv h.2.symm
  rw [hinner, process_signal_clickSig]
  by_cases hva : v = "All"
  · subst hva
    simp
  · rw [if_pos ⟨hva, rfl⟩]

lemma manage_grade_eq (sigs : Signals) (s : FilterState) :
    manage_filters (some "chart-grade") sigs s =
      { s with grade := process_signal sigs.sigGrade "sel_grade" "GradeLevel" s.grade } := rfl

lemma manage_subject_eq (sigs : Signals) (s : FilterState) :
    manage_filters (some "chart-subject") sigs s =
      { s with subject := process_signal sigs.sigSubj "sel_subject" "SubjectName" s.subject } := rfl

lemma manage_assess_eq (sigs : Signals) (s : FilterState) :
    manage_filters (some "chart-assess") sigs s =
      { s with assess := process_signal sigs.sigAssess "sel_assess" "Assessment_Grade" s.assess } := rfl

lemma manage_unknown_eq (t : String) (sigs : Signals) (s : FilterState)
    (h1 : t ≠ "btn-reset") (h2 : t ≠ "chart-grade") (h3 : t ≠ "chart-subject")
    (h4 : t ≠ "chart-assess") :
    manage_filters (some t) sigs s = s := by
  simp [manage_filters, h1, h2, h3, h4]

lemma process_signal_no_category (sig : SignalData) (sname key c : String)
    (sel : Sel) (hfind : lookupVal sname sig = some sel) (hne : sel ≠ [])
    (hkey : lookupVal key sel = none ∨ lookupVal key sel = some []) :
    process_signal sig sname key c = c := by
  unfold process_signal
  rw [hfind]
  rcases hkey with hk | hk <;> simp [hne, hk]

/-- C2 counterexample: with the grade dimension currently at "Grade 9",
clicking "Grade 10" twice on the grade chart leaves the dimension
Unconstrained ("All"), not at its original selection "Grade 9". -/
theorem c2_involution_counterexample :
    manage_filters (some "chart-grade")
        ⟨clickSig "sel_grade" "GradeLevel" "Grade 10", [], []⟩
        (manage_filters (some "chart-grade")
          ⟨clickSig "sel_grade" "GradeLevel" "Grade 10", [], []⟩
          ⟨"Grade 9", "All", "All"⟩) ≠ ⟨"Grade 9", "All", "All"⟩ := by
  decide

/-- C2 (amended): for every dimension d and category v, applying toggle(d, v)
twice in succession returns the whole Filter State to its starting value
provided the starting selection for d was Unconstrained ("All") or equal to v;
from any other starting selection the double toggle leaves d Unconstrained;
other dimensions are untouched throughout. -/
theorem c2_toggle_involution_amended (v : String) (s : FilterState)
    (sg ss sa : SignalData) :
    (s.grade = "All" ∨ s.grade = v →
      manage_filters (some "chart-grade") ⟨clickSig "sel_grade" "GradeLevel" v, ss, sa⟩
        (manage_filters (some "chart-grade")
          ⟨clickSig "sel_grade" "GradeLevel" v, ss, sa⟩ s) = s)
  ∧ (s.subject = "All" ∨ s.subject = v →
      manage_filters (some "chart-subject") ⟨sg, clickSig "sel_subject" "SubjectName" v, sa⟩
        (manage_filters (some "chart-subject")
          ⟨sg, clickSig "sel_subject" "SubjectName" v, sa⟩ s) = s)
  ∧ (s.assess = "All" ∨ s.assess = v →
      manage_filters (some "chart-assess") ⟨sg, ss, clickSig "sel_assess" "Assessment_Grade" v⟩
        (manage_filters (some "chart-assess")
          ⟨sg, ss, clickSig "sel_assess" "Assessment_Grade" v⟩ s) = s)
  ∧ (s.grade ≠ "All" → s.grade ≠ v →
      manage_filters (some "chart-grade") ⟨clickSig "sel_grade" "GradeLevel" v, ss, sa⟩
        (manage_filters (some "chart-grade")
          ⟨clickSig "sel_grade" "GradeLevel" v, ss, sa⟩ s) = { s with grade := "All" })
  ∧ (s.subject ≠ "All" → s.subject ≠ v →
      manage_filters (some "chart-subject") ⟨sg, clickSig "sel_subject" "SubjectName" v, sa⟩
        (manage_filters (some "chart-subject")
          ⟨sg, clickSig "sel_subject" "SubjectName" v, sa⟩ s) = { s with subject := "All" })
  ∧ (s.assess ≠ "All" → s.assess ≠ v →
      manage_filters (some "chart-assess") ⟨sg, ss, clickSig "sel_assess" "Assessment_Grade" v⟩
        (manage_filters (some "chart-assess")
          ⟨sg, ss, clickSig "sel_assess" "Assessment_Grade" v⟩ s) =
        { s with assess := "All" }) := by
  obtain ⟨g, sj, sa2⟩ := s
  refine ⟨fun h => ?_, fun h => ?_, fun h => ?_,
    fun h1 h2 => ?_, fun h1 h2 => ?_, fun h1 h2 => ?_⟩
  · have ht := toggle_twice "sel_grade" "GradeLevel" v g h
    simp [manage_grade_eq, ht]
  · have ht := toggle_twice "sel_subject" "SubjectName" v sj h
    simp [manage_subject_eq, ht]
  · have ht := toggle_twice "sel_assess" "Assessment_Grade" v sa2 h
    simp [manage_assess_eq, ht]
  · have ht := toggle_twice_other "sel_grade" "GradeLevel" v g h1 h2
    simp [manage_grade_eq, ht]
  · have ht := toggle_twice_other "sel_subject" "SubjectName" v sj h1 h2
    simp [manage_subject_eq, ht]
  · have ht := toggle_twice_other "sel_assess" "Assessment_Grade" v sa2 h1 h2
    simp [manage_assess_eq, ht]

/-- C2 witness: the amended involution applied concretely: toggling "Grade 9"
twice from the all-Unconstrained state restores it, and toggling "Grade 10"
twice from grade "Grade 9" leaves the grade dimension Unconstrained. -/
theorem c2_involution_witness :
    (("All" : String) = "All" ∨ ("All" : String) = "Grade 9") ∧
    manage_filters (some "chart-grade")
        ⟨clickSig "sel_grade" "GradeLevel" "Grade 9", [], []⟩
        (manage_filters (some "chart-grade")
          ⟨clickSig "sel_grade" "GradeLevel" "Grade 9", [], []⟩
          ⟨"All", "All", "All"⟩) = ⟨"All", "All", "All"⟩ ∧
    manage_filters (some "chart-grade")
        ⟨clickSig "sel_grade" "GradeLevel" "Grade 10", [], []⟩
        (manage_filters (some "chart-grade")
          ⟨clickSig "sel_grade" "GradeLevel" "Grade 10", [], []⟩
          ⟨"Grade 9", "All", "All"⟩) = ⟨"All", "All", "All"⟩ :=
  ⟨Or.inl rfl,
    (c2_toggle_involution_amended "Grade 9" ⟨"All", "All", "All"⟩ [] [] []).1 (Or.inl rfl),
    (c2_toggle_involution_amended "Grade 10" ⟨"Grade 9", "All", "All"⟩ [] [] []).2.2.2.1
      (by decide) (by decide)⟩

/-- C3: toggle reference semantics of `process_signal`: an empty-space click
(falsy selection) yields Unconstrained; a click on the currently selected
category yields Unconstrained; a click on any other category selects it; and
toggling v1 then v2 with v1 different from v2 leaves the dimension at v2. -/
theorem c3_toggle_reference_semantics (sname key c v v1 v2 : String)
    (hv : v ≠ "All") (h12 : v1 ≠ v2) :
    (process_signal [(sname, [])] sname key c = "All")
  ∧ (c = v → process_signal (clickSig sname key v) sname key c = "All")
  ∧ (c ≠ v → process_signal (clickSig sname key v) sname key c = v)
  ∧ (process_signal (clickSig sname key v2) sname key
       (process_signal (clickSig sname key v1) sname key c) = v2) := by
  refine ⟨?_, fun h => ?_, fun h => ?_, ?_⟩
  · simp [process_signal, lookupVal]
  · subst h
    rw [process_signal_clickSig]
    simp [hv]
  · rw [process_signal_clickSig]
    exact if_neg fun hc => h hc.2.symm
  · rw [process_signal_clickSig, process_signal_clickSig]
    by_cases hin : c ≠ "All" ∧ v1 = c
    · simp [hin]
    · rw [if_neg hin]
      exact if_neg fun hcon => h12 hcon.2.symm

/-- C3 witness: the reference semantics evaluated at concrete categories. -/
theorem c3_semantics_witness :
    ("Grade 9" : String) ≠ "All" ∧ ("Grade 9" : String) ≠ "Grade 10" ∧
    process_signal (clickSig "sel_grade" "GradeLevel" "Grade 10") "sel_grade" "GradeLevel"
      (process_signal (clickSig "sel_grade" "GradeLevel" "Grade 9")
        "sel_grade" "GradeLevel" "All") = "Grade 10" :=
  ⟨by decide, by decide,
    (c3_toggle_reference_semantics "sel_grade" "GradeLevel" "All" "Grade 9" "Grade 9"
      "Grade 10" (by decide) (by decide)).2.2.2⟩

/-- C4 counterexample: a request naming the dimension "chart-quarter", absent
from this app's registry, is silently tolerated: `manage_filters` returns the
Filter State unchanged instead of failing. -/
theorem c4_unknown_dimension_counterexample :
    manage_filters (some "chart-quarter")
      ⟨clickSig "sel_quarter" "YearQuarterConcat" "2023 Q1", [], []⟩
      ⟨"Grade 9", "Math", "A"⟩ = ⟨"Grade 9", "Math", "A"⟩ := by
  decide

/-- C4 (amended): a toggle/exclude request naming a dimension absent from the
registry is silently ignored: `manage_filters` is total and returns the Filter
State unchanged (a no-op), raising no failure. -/
theorem c4_unknown_dimension_amended (t : String) (sigs : Signals) (s : FilterState)
    (h1 : t ≠ "btn-reset") (h2 : t ≠ "chart-grade") (h3 : t ≠ "chart-subject")
    (h4 : t ≠ "chart-assess") :
    manage_filters (some t) sigs s = s :=
  manage_unknown_eq t sigs s h1 h2 h3 h4

/-- C4 witness: the amended no-op behaviour at the concrete unknown trigger
"chart-quarter". -/
theorem c4_unknown_dimension_witness :
    ("chart-quarter" : String) ≠ "btn-reset" ∧
    manage_filters (some "chart-quarter") ⟨[], [], []⟩ ⟨"Grade 9", "Math", "A"⟩ =
      ⟨"Grade 9", "Math", "A"⟩ :=
  ⟨by decide,
    c4_unknown_dimension_amended "chart-quarter" ⟨[], [], []⟩ ⟨"Grade 9", "Math", "A"⟩
      (by decide) (by decide) (by decide) (by decide)⟩

/-- C9: toggle frame property: an interaction on one chart leaves the
selections of the two other dimensions exactly equal to their prior values. -/
theorem c9_toggle_frame (sigs : Signals) (s : FilterState) :
    ((manage_filters (some "chart-grade") sigs s).subject = s.subject ∧
     (manage_filters (some "chart-grade") sigs s).assess = s.assess)
  ∧ ((manage_filters (some "chart-subject") sigs s).grade = s.grade ∧
     (manage_filters (some "chart-subject") sigs s).assess = s.assess)
  ∧ ((manage_filters (some "chart-assess") sigs s).grade = s.grade ∧
     (manage_filters (some "chart-assess") sigs s).subject = s.subject) :=
  ⟨⟨rfl, rfl⟩, ⟨rfl, rfl⟩, ⟨rfl, rfl⟩⟩

/-- C5: malformed-payload atomic no-op: an interaction naming an unknown
dimension, or carrying an otherwise-populated selection that lacks the
dimension's category field (or holds an empty value list), leaves the entire
Filter State exactly unchanged. -/
theorem c5_malformed_noop (s : FilterState) (sg ss sa : SignalData) (t : String) :
    (t ≠ "btn-reset" → t ≠ "chart-grade" → t ≠ "chart-subject" → t ≠ "chart-assess" →
      manage_filters (some t) ⟨sg, ss, sa⟩ s = s)
  ∧ (∀ sel : Sel, sel ≠ [] →
      (lookupVal "GradeLevel" sel = none ∨ lookupVal "GradeLevel" sel = some []) →
      manage_filters (some "chart-grade") ⟨[("sel_grade", sel)], ss, sa⟩ s = s)
  ∧ (∀ sel : Sel, sel ≠ [] →
      (lookupVal "SubjectName" sel = none ∨ lookupVal "SubjectName" sel = some []) →
      manage_filters (some "chart-subject") ⟨sg, [("sel_subject", sel)], sa⟩ s = s)
  ∧ (∀ sel : Sel, sel ≠ [] →
      (lookupVal "Assessment_Grade" sel = none ∨ lookupVal "Assessment_Grade" sel = some []) →
      manage_filters (some "chart-assess") ⟨sg, ss, [("sel_assess", sel)]⟩ s = s) := by
  refine ⟨fun h1 h2 h3 h4 => manage_unknown_eq t _ s h1 h2 h3 h4,
    fun sel hne hkey => ?_, fun sel hne hkey => ?_, fun sel hne hkey => ?_⟩
  · rw [manage_grade_eq]
    rw [process_signal_no_category _ _ _ _ sel (by simp [lookupVal]) hne hkey]
  · rw [manage_subject_eq]
    rw [process_signal_no_category _ _ _ _ sel (by simp [lookupVal]) hne hkey]
  · rw [manage_assess_eq]
    rw [process_signal_no_category _ _ _ _ sel (by simp [lookupVal]) hne hkey]

/-- C5 witness: a populated payload without the category field, and an unknown
trigger, both leave the concrete state unchanged. -/
theorem c5_malformed_noop_witness :
    ([("Foo", ["x"])] : Sel) ≠ [] ∧
    manage_filters (some "chart-grade") ⟨[("sel_grade", [("Foo", ["x"])])], [], []⟩
      ⟨"Grade 9", "Math", "A"⟩ = ⟨"Grade 9", "Math", "A"⟩ ∧
    manage_filters (some "no-such-chart") ⟨[], [], []⟩ ⟨"Grade 9", "Math", "A"⟩ =
      ⟨"Grade 9", "Math", "A"⟩ :=
  ⟨by decide,
    (c5_malformed_noop ⟨"Grade 9", "Math", "A"⟩ [] [] [] "no-such-chart").2.1
      [("Foo", ["x"])] (by decide) (Or.inl rfl),
    (c5_malformed_noop ⟨"Grade 9", "Math", "A"⟩ [] [] [] "no-such-chart").1
      (by decide) (by decide) (by decide) (by decide)⟩

/-- C1: self-exclusion invariant: the subset handed to each chart is computed
with that chart's own dimension excluded, so it does not depend on that
dimension's selection; consequently the assessment-grade aggregate of the
assessment chart is unchanged when the assessment selection changes, all other
selections held fixed. -/
theorem c1_self_exclusion (rows : List Rec) (g g' sj sj' sa sa' : String) :
    (filter_df g sj sa true false false rows = filter_df g' sj sa true false false rows)
  ∧ (filter_df g sj sa false true false rows = filter_df g sj' sa false true false rows)
  ∧ (filter_df g sj sa false false true rows = filter_df g sj sa' false false true rows)
  ∧ (build_donut_assess_data (filter_df g sj sa false false true rows) =
      build_donut_assess_data (filter_df g sj sa' false false true rows)) := by
  refine ⟨?_, ?_, ?_, ?_⟩ <;> simp [filter_df]

/-- C6: ordinal category completeness: for every non-empty subset, the
assessment-grade donut data has exactly 5 records, one per declared category in
the declared order A,B,C,D,F, the count being 0 for categories with no matching
rows. -/
theorem c6_ordinal_completeness (rows : List Rec) (h : rows ≠ []) :
    build_donut_assess_data rows =
      some (grade_order.map fun g => (g, countVal g (rows.map assessGrade)))
  ∧ ((build_donut_assess_data rows).getD []).map Prod.fst = grade_order
  ∧ ((build_donut_assess_data rows).getD []).length = 5
  ∧ ∀ g ∈ grade_order, (∀ r ∈ rows, assessGrade r ≠ g) →
      (g, 0) ∈ (build_donut_assess_data rows).getD [] := by
  have hmain : build_donut_assess_data rows =
      some (grade_order.map fun g => (g, countVal g (rows.map assessGrade))) := by
    unfold build_donut_assess_data
    rw [if_neg h, reindex_value_counts]
  refine ⟨hmain, ?_, ?_, ?_⟩
  · rw [hmain]
    simp [grade_order]
  · rw [hmain]
    simp [grade_order]
  · intro g hg hnone
    rw [hmain]
    simp only [Option.getD_some]
    have hz : countVal g (rows.map assessGrade) = 0 := by
      apply countVal_of_not_mem
      intro hmem
      obtain ⟨r, hr, hrg⟩ := List.mem_map.mp hmem
      exact hnone r hr hrg
    exact List.mem_map.mpr ⟨g, hg, by rw [hz]⟩

/-- A concrete record of the wide table, used to instantiate theorems. -/
def recA : Rec := ⟨1001, "Grade 9", "Math", 90, 1, 90⟩

/-- A second concrete record of the wide table. -/
def recD : Rec := ⟨1002, "Grade 10", "Science", 60, 3, 180⟩

/-- C6 witness: the completeness facts evaluated on a one-record subset whose
only grade is "A". -/
theorem c6_completeness_witness :
    ([recA] : List Rec) ≠ [] ∧
    build_donut_assess_data [recA] =
      some (grade_order.map fun g => (g, countVal g ([recA].map assessGrade))) ∧
    build_donut_assess_data [recA] =
      some [("A", 1), ("B", 0), ("C", 0), ("D", 0), ("F", 0)] :=
  ⟨by decide, (c6_ordinal_completeness [recA] (by decide)).1, by decide⟩

/-- C7: KPI no-data sentinel: when the fully-filtered subset (no dimension
excluded) is empty, all four KPI values are the "N/A" sentinel. -/
theorem c7_kpi_no_data (hw : Bool) (g sj sa : String) (rows : List Rec)
    (h : filter_df g sj sa false false false rows = []) :
    computeKpis hw (filter_df g sj sa false false false rows) =
      ⟨none, none, none, none⟩ := by
  rw [h]
  rfl

/-- C7 witness: a non-empty dataset fully filtered down to nothing yields the
sentinel in all four KPI slots. -/
theorem c7_no_data_witness :
    filter_df "Grade 10" "All" "All" false false false [recA] = [] ∧
    computeKpis true (filter_df "Grade 10" "All" "All" false false false [recA]) =
      ⟨none, none, none, none⟩ :=
  ⟨by decide, c7_kpi_no_data true "Grade 10" "All" "All" [recA] (by decide)⟩

/-- C8: weighted-mean definition and fallback: on a non-empty fully-filtered
subset whose `WeightedScore` column carries the repository's own derivation
score times weight, the weighted KPI is sum(score*weight)/sum(weight) when the
weight columns are present with positive total, and otherwise (non-positive
total, or columns absent) it equals the plain mean KPI. -/
theorem c8_weighted_mean (subset : List Rec) (hne : subset ≠ [])
    (hws : ∀ r ∈ subset, r.weightedScore = r.score * r.weight) :
    (0 < (subset.map Rec.weight).sum →
      (computeKpis true subset).wavg =
        some ((subset.map fun r => r.score * r.weight).sum / (subset.map Rec.weight).sum))
  ∧ (¬ 0 < (subset.map Rec.weight).sum →
      (computeKpis true subset).wavg = (computeKpis true subset).avg)
  ∧ ((computeKpis false subset).wavg = (computeKpis false subset).avg) := by
  have hmap : subset.map Rec.weightedScore = subset.map fun r => r.score * r.weight :=
    List.map_congr_left hws
  refine ⟨fun hpos => ?_, fun hneg => ?_, ?_⟩
  · simp [computeKpis, hne, hpos, hmap]
  · simp [computeKpis, hne, hneg]
  · simp [computeKpis, hne]

/-- C8 witness: two records with weights 1 and 3 give weighted mean
(90*1 + 60*3)/4. -/
theorem c8_weighted_mean_witness :
    ([recA, recD] : List Rec) ≠ [] ∧
    (0 : ℚ) < ([recA, recD].map Rec.weight).sum ∧
    (computeKpis true [recA, recD]).wavg =
      some ((([recA, recD].map fun r => r.score * r.weight).sum) /
        (([recA, recD].map Rec.weight).sum)) :=
  ⟨by simp, by norm_num [recA, recD],
    (c8_weighted_mean [recA, recD] (by simp) (by norm_num [recA, recD])).1
      (by norm_num [recA, recD])⟩

/-- C10: pass/grade boundary mismatch: the grade is "F" exactly when the score
is at most 54, the pass flag is "Pass" exactly when the score is at least 55,
the grade function only produces the five declared letters, and a score
strictly between 54 and 55 is graded "D" yet marked "Fail". -/
theorem c10_pass_grade_boundary :
    (∀ s : ℚ, get_grade s = "F" ↔ s ≤ 54)
  ∧ (∀ s : ℚ, passedScore s = "Pass" ↔ 55 ≤ s)
  ∧ (∀ s : ℚ, get_grade s ∈ grade_order)
  ∧ (∀ s : ℚ, 54 < s → s < 55 → get_grade s = "D" ∧ passedScore s = "Fail") := by
  refine ⟨fun s => ?_, fun s => ?_, fun s => ?_, fun s h1 h2 => ⟨?_, ?_⟩⟩
  · unfold get_grade
    split_ifs with ha hb hc hd
    · exact iff_of_false (by decide) (by linarith)
    · exact iff_of_false (by decide) (by linarith)
    · exact iff_of_false (by decide) (by linarith)
    · exact iff_of_false (by decide) (by linarith)
    · exact iff_of_true rfl (by linarith)
  · unfold passedScore
    split_ifs with hp
    · exact iff_of_true rfl hp
    · exact iff_of_false (by decide) hp
  · unfold get_grade
    split_ifs <;> simp [grade_order]
  · unfold get_grade
    rw [if_neg (by linarith : ¬ s > 84), if_neg (by linarith : ¬ s > 74),
      if_neg (by linarith : ¬ s > 64), if_pos h1]
  · unfold passedScore
    rw [if_neg (by linarith : ¬ s ≥ 55)]

/-- C10 witness: the score 54.5 lies strictly between the boundaries and is
graded "D" while flagged "Fail". -/
theorem c10_boundary_witness :
    (54 : ℚ) < 109 / 2 ∧ (109 / 2 : ℚ) < 55 ∧
    get_grade (109 / 2) = "D" ∧ passedScore (109 / 2) = "Fail" :=
  ⟨by norm_num, by norm_num,
    (c10_pass_grade_boundary.2.2.2 (109 / 2) (by norm_num) (by norm_num)).1,
    (c10_pass_grade_boundary.2.2.2 (109 / 2) (by norm_num) (by norm_num)).2⟩
